import Mathlib

/-!
Shallow embedding of the webapp user-account service.

Sources embedded:
  - src/models/user.py : the User table model and its safe_dict projection.
  - src/db.py          : store operations (create_user, get_user_from_email,
                         update_user_with_id), each of which wraps its body in
                         a try/except and degrades failures to False/None.
  - src/api.py         : the request handlers (signup, login, get_current_user,
                         update_user) and the UpdateRequest body model.

Modelling conventions:
  - The database table is a list of User records; each store call that in
    Python may raise (connectivity loss, constraint violation) and is caught
    takes an explicit Boolean oracle saying whether that call's try block
    failed.
  - Timestamps are natural numbers.  The Python model declares
    account_created and account_updated with Field(default=datetime.now(...)),
    an expression evaluated ONCE when the class body executes (module import),
    so the default is a constant; it is the explicit parameter importTime of
    parseUserBody.
  - Salts are natural numbers; bcrypt.gensalt() at a call site becomes a salt
    parameter of the embedded handler.
  - The hasher (the external bcrypt library, not part of this repository) is
    modelled from the spec contract: a salted encoding that is injective in
    the plaintext, whose verify returns false on any unparseable stored value.
-/

namespace Webapp

/-- The User entity of src/models/user.py.  id is Optional (assigned by the
store when absent); first_name and last_name are Optional in the model;
timestamps are naturals. -/
structure User where
  id : Option Nat
  email : String
  password : String
  first_name : Option String
  last_name : Option String
  account_created : Nat
  account_updated : Nat
deriving DecidableEq, Repr

/-- HTTP Basic credentials as parsed by the security dependency. -/
structure Credentials where
  username : String
  password : String
deriving DecidableEq, Repr

/-- JSON values appearing in response bodies. -/
inductive JValue where
  | jnull : JValue
  | jnum : Nat → JValue
  | jstr : String → JValue
deriving DecidableEq, Repr

/-- An HTTP response: status code, headers, and an optional JSON-object body
(a list of key/value pairs, as produced by json.dumps of a dict). -/
structure HResponse where
  status : Nat
  headers : List (String × String)
  body : Option (List (String × JValue))
deriving DecidableEq, Repr

def okResp : HResponse := ⟨200, [], none⟩

def createdResp : HResponse := ⟨201, [], none⟩

def unavailableResp : HResponse := ⟨503, [], none⟩

/-- Response(status_code=401, headers=\x7b"WWW-Authenticate": "Basic"\x7d). -/
def unauthorizedResp : HResponse := ⟨401, [("WWW-Authenticate", "Basic")], none⟩

/-- Modelled from the spec: the Password Hasher of section 4.1 is the external
bcrypt library, whose source is not part of this repository.  The hashed form
is a text encoding that embeds the salt (here in unary, an abstraction of
bcrypt's salt/cost encoding) and determines the original plaintext. -/
def hashpw (plaintext : String) (salt : Nat) : String :=
  String.mk ('$' :: '2' :: 'b' :: '$' ::
    (List.replicate salt 'x' ++ '$' :: plaintext.data))

/-- Parse the salt section of a stored hash: unary salt digits followed by a
separator; everything after the separator is the payload. -/
def parseSalt : List Char → Option (Nat × List Char)
  | '$' :: rest => some (0, rest)
  | 'x' :: rest =>
      match parseSalt rest with
      | some (n, p) => some (n + 1, p)
      | none => none
  | _ => none

/-- Parse a stored hash: the format prefix then the salt section.  A stored
value not produced by hashpw (corrupt or wrong-format) fails to parse. -/
def parseHash : List Char → Option (Nat × List Char)
  | '$' :: '2' :: 'b' :: '$' :: rest => parseSalt rest
  | _ => none

/-- Modelled from the spec: bcrypt.checkpw.  Per the section 4.1 contract,
verification of a malformed stored value returns false (it never raises past
the handler); on a well-formed value it compares the claimed plaintext with
the plaintext the hash was produced from. -/
def checkpw (plaintext : String) (hashed : String) : Bool :=
  match parseHash hashed.data with
  | some (_, payload) => plaintext.data == payload
  | none => false

/-- Python truthiness of an Optional[str]: None and the empty string are
falsy, any non-empty string is truthy. -/
def truthy : Option String → Bool
  | none => false
  | some s => s != ""

/-- The smallest integer identifier the store has never used. -/
def nextId (db : List User) : Nat :=
  db.foldr (fun u m => max (u.id.getD 0) m) 0 + 1

/-- The store populates the generated primary key on insert when the record
does not carry one. -/
def assignId (u : User) (db : List User) : User :=
  match u.id with
  | none => { u with id := some (nextId db) }
  | some _ => u

/-- db.create_user: adds and commits the record; the commit raises (and the
function catches, returning False) on connectivity failure or when the unique
constraint on email is violated. -/
def create_user (new_user : User) (db : List User) (connFails : Bool) :
    Bool × List User :=
  if connFails || db.any (fun u => u.email == new_user.email) then (false, db)
  else (true, db ++ [assignId new_user db])

/-- db.get_user_from_email: first record whose email matches exactly; None
when absent, and None as well when the query raises (caught and logged). -/
def get_user_from_email (email : String) (db : List User) (connFails : Bool) :
    Option User :=
  if connFails then none
  else db.find? (fun u => u.email == email)

/-- db.update_user_with_id: loads the record by primary key; if absent (or
the session raises, caught as None) returns None; otherwise overwrites
first_name, last_name and password from the given record (the
fields_to_update loop), stamps account_updated with the current time, commits
and returns the refreshed record. -/
def update_user_with_id (user_id : Option Nat) (user : User) (db : List User)
    (connFails : Bool) (now : Nat) : Option User × List User :=
  if connFails then (none, db)
  else
    match db.find? (fun u => u.id == user_id) with
    | none => (none, db)
    | some existing_user =>
        let updated : User :=
          { existing_user with
            first_name := user.first_name
            last_name := user.last_name
            password := user.password
            account_updated := now }
        (some updated, db.map (fun u => if u.id == user_id then updated else u))

/-- The POST /signup request body, parsed by pydantic as the full User model:
every field of the table model may be supplied by the client; absent
timestamps take the model default. -/
structure SignupBody where
  id : Option Nat
  email : String
  password : String
  first_name : Option String
  last_name : Option String
  account_created : Option Nat
  account_updated : Option Nat
deriving DecidableEq, Repr

/-- Pydantic parsing of a signup body into a User record.  importTime is the
value of the field default datetime.now(timezone.utc), evaluated once when
the class body executed at module import. -/
def parseUserBody (importTime : Nat) (b : SignupBody) : User :=
  { id := b.id
    email := b.email
    password := b.password
    first_name := b.first_name
    last_name := b.last_name
    account_created := b.account_created.getD importTime
    account_updated := b.account_updated.getD importTime }

/-- The record the signup handler hands to the store: the parsed request with
the plaintext password replaced by its hash, every other field untouched. -/
def signupStoredUser (new_user : User) (salt : Nat) : User :=
  { new_user with password := hashpw new_user.password salt }

/-- api.signup: hash the password in place, call create_user; 201 when the
store reports success, 503 otherwise. -/
def signup (new_user : User) (db : List User) (connFails : Bool) (salt : Nat) :
    HResponse × List User :=
  let r := create_user (signupStoredUser new_user salt) db connFails
  if r.1 then (createdResp, r.2) else (unavailableResp, r.2)

/-- api.login: look the user up by email; only when a record was found is
bcrypt.checkpw invoked.  The second component counts the checkpw calls the
request performed, recording the short-circuit on unknown email.  200 on
match, 401 with a challenge header otherwise. -/
def login (c : Credentials) (db : List User) (connFails : Bool) :
    HResponse × Nat :=
  match get_user_from_email c.username db connFails with
  | some user =>
      if checkpw c.password user.password then (okResp, 1)
      else (unauthorizedResp, 1)
  | none => (unauthorizedResp, 0)

/-- user.safe_dict of src/models/user.py: the dictionary representation used
as the GET /me body. -/
def safe_dict (u : User) : List (String × JValue) :=
  [ ("id", match u.id with | some n => JValue.jnum n | none => JValue.jnull)
  , ("email", JValue.jstr u.email)
  , ("first_name", match u.first_name with
      | some s => JValue.jstr s
      | none => JValue.jnull)
  , ("last_name", match u.last_name with
      | some s => JValue.jstr s
      | none => JValue.jnull)
  , ("account_created", JValue.jstr (toString u.account_created))
  , ("account_updated", JValue.jstr (toString u.account_updated)) ]

/-- api.get_current_user: same credential re-check as login; on success a 200
whose body is json.dumps(user.safe_dict()), otherwise 401 with the challenge
header. -/
def get_current_user (c : Credentials) (db : List User) (connFails : Bool) :
    HResponse :=
  match get_user_from_email c.username db connFails with
  | some user =>
      if checkpw c.password user.password then
        ⟨200, [], some (safe_dict user)⟩
      else unauthorizedResp
  | none => unauthorizedResp

/-- The PUT /me request body: three optional fields with length validation
(password at least 8, names at least 1 when present). -/
structure UpdateRequest where
  password : Option String
  last_name : Option String
  first_name : Option String
deriving DecidableEq, Repr

/-- The pydantic validation constraints of UpdateRequest: a supplied password
has at least 8 characters, supplied names at least 1. -/
def validUpdateRequest (r : UpdateRequest) : Prop :=
  (∀ p, r.password = some p → 8 ≤ p.length) ∧
  (∀ s, r.last_name = some s → 1 ≤ s.length) ∧
  (∀ s, r.first_name = some s → 1 ≤ s.length)

/-- api.update_user: re-check credentials; on success build the merged patch
record (truthy request field wins, otherwise the stored value carries over;
a supplied password is re-hashed) and call update_user_with_id.  200 when the
store returns the updated record; every other path, including a failed store
update, falls through to the single 401 return. -/
def update_user (c : Credentials) (new_user : UpdateRequest) (db : List User)
    (connFails updFails : Bool) (importTime now salt : Nat) :
    HResponse × List User :=
  match get_user_from_email c.username db connFails with
  | some user_from_db =>
      if checkpw c.password user_from_db.password then
        let patch : User :=
          { id := none
            email := ""
            first_name :=
              if truthy new_user.first_name then new_user.first_name
              else user_from_db.first_name
            last_name :=
              if truthy new_user.last_name then new_user.last_name
              else user_from_db.last_name
            password :=
              if truthy new_user.password then
                hashpw (new_user.password.getD "") salt
              else user_from_db.password
            account_created := importTime
            account_updated := importTime }
        let r := update_user_with_id user_from_db.id patch db updFails now
        if r.1.isSome then (okResp, r.2) else (unauthorizedResp, r.2)
      else (unauthorizedResp, db)
  | none => (unauthorizedResp, db)

/-- A sample stored record used by concrete witnesses: the scenario user of
the spec, with password hash produced at salt 2. -/
def alice : User :=
  ⟨some 1, "a@x.com", hashpw "secret123" 2, some "A", some "B", 0, 0⟩

/-- A sample signup request: the spec's scenario body, with store-assigned
identifier and default timestamps. -/
def bobReq : User :=
  ⟨none, "b@x.com", "longenough1", some "A", some "B", 0, 0⟩

/-- A sample record whose stored password value is corrupt: it is not in the
hash format (no format prefix), so verification can never succeed. -/
def mallory : User :=
  ⟨some 2, "m@x.com", "plaintext", some "M", some "M", 0, 0⟩

/-! Helper lemmas. -/

theorem parseSalt_encode (s : Nat) (p : List Char) :
    parseSalt (List.replicate s 'x' ++ '$' :: p) = some (s, p) := by
  induction s with
  | zero => simp [parseSalt]
  | succ n ih =>
      rw [List.replicate_succ, List.cons_append]
      simp only [parseSalt]
      rw [ih]

theorem parseHash_hashpw (p : String) (s : Nat) :
    parseHash (hashpw p s).data = some (s, p.data) := by
  simp [hashpw, parseHash, parseSalt_encode]

theorem checkpw_hashpw (p : String) (s : Nat) :
    checkpw p (hashpw p s) = true := by
  simp [checkpw, parseHash_hashpw]

theorem string_data_inj {p q : String} (h : p.data = q.data) : p = q := by
  cases p
  cases q
  simp at h
  rw [h]

theorem checkpw_hashpw_ne (p q : String) (s : Nat) (h : q ≠ p) :
    checkpw q (hashpw p s) = false := by
  simp only [checkpw, parseHash_hashpw]
  simp only [beq_eq_false_iff_ne, ne_eq]
  intro e
  exact h (string_data_inj e)

theorem truthy_some_of_length (s : String) (h : 1 ≤ s.length) :
    truthy (some s) = true := by
  simp only [truthy, bne_iff_ne, ne_eq, decide_eq_true_eq]
  intro e
  subst e
  exact absurd h (by decide)

theorem find_map_replace {α : Type} (p : α → Bool) (r x : α) (hr : p r = true) :
    ∀ l : List α, l.find? p = some x →
      (l.map (fun v => if p v then r else v)).find? p = some r := by
  intro l
  induction l with
  | nil => intro h; simp [List.find?] at h
  | cons a t ih =>
      intro h
      cases ha : p a with
      | true =>
          simp only [List.map_cons, ha, if_true]
          exact List.find?_cons_of_pos _ hr
      | false =>
          rw [List.find?_cons_of_neg _ (by simp [ha])] at h
          simp only [List.map_cons, ha, if_false]
          rw [List.find?_cons_of_neg _ (by simp [ha])]
          exact ih h

theorem assignId_email (u : User) (db : List User) :
    (assignId u db).email = u.email := by
  cases h : u.id <;> simp [assignId, h]

/-! Claims. -/

/-- Claim C4: the hash produced at signup or update is accepted by the verify
used at login exactly for the original plaintext: for every plaintext p and
salt, checkpw p (hashpw p salt) is true, and for every plaintext p2 different
from p, checkpw p2 (hashpw p salt) is false. -/
theorem C4_hash_roundtrip (p : String) (salt : Nat) :
    checkpw p (hashpw p salt) = true ∧
    ∀ p2 : String, p2 ≠ p → checkpw p2 (hashpw p salt) = false :=
  ⟨checkpw_hashpw p salt, fun p2 h => checkpw_hashpw_ne p p2 salt h⟩

/-- Claim C4 witness: the round trip at a concrete plaintext and salt, and
rejection of a concrete different plaintext. -/
theorem C4_hash_roundtrip_check :
    checkpw "secret123" (hashpw "secret123" 2) = true ∧
    checkpw "wrongpass" (hashpw "secret123" 2) = false :=
  ⟨(C4_hash_roundtrip "secret123" 2).1,
   (C4_hash_roundtrip "secret123" 2).2 "wrongpass" (by decide)⟩

/-- Claim C1: authentication maps claimed credentials to a user or no match
exactly as specified.  Unknown email gives no match with zero hash
comparisons; known email with a non-verifying password gives no match; known
email with a verifying password gives that user.  On GET /login, GET /me and
PUT /me a no-match outcome is a 401 response carrying the
WWW-Authenticate Basic header. -/
theorem C1_authenticate (c : Credentials) (db : List User) (req : UpdateRequest)
    (it now salt : Nat) (uf : Bool) :
    (get_user_from_email c.username db false = none →
       login c db false = (unauthorizedResp, 0) ∧
       get_current_user c db false = unauthorizedResp ∧
       (update_user c req db false uf it now salt).1 = unauthorizedResp) ∧
    (∀ u, get_user_from_email c.username db false = some u →
       (checkpw c.password u.password = false →
          login c db false = (unauthorizedResp, 1) ∧
          get_current_user c db false = unauthorizedResp ∧
          (update_user c req db false uf it now salt).1 = unauthorizedResp) ∧
       (checkpw c.password u.password = true →
          login c db false = (okResp, 1) ∧
          get_current_user c db false = ⟨200, [], some (safe_dict u)⟩)) ∧
    unauthorizedResp.status = 401 ∧
    unauthorizedResp.headers = [("WWW-Authenticate", "Basic")] := by
  refine ⟨?_, ?_, rfl, rfl⟩
  · intro h
    refine ⟨?_, ?_, ?_⟩ <;> simp [login, get_current_user, update_user, h]
  · intro u hu
    constructor
    · intro hc
      refine ⟨?_, ?_, ?_⟩ <;>
        simp [login, get_current_user, update_user, hu, hc]
    · intro hc
      constructor <;> simp [login, get_current_user, hu, hc]

/-- Claim C1 witness: concrete unknown-email, wrong-password and
right-password requests against a one-user store. -/
theorem C1_authenticate_check :
    login ⟨"ghost@x.com", "pw"⟩ [] false = (unauthorizedResp, 0) ∧
    login ⟨"a@x.com", "wrongpass"⟩ [alice] false = (unauthorizedResp, 1) ∧
    login ⟨"a@x.com", "secret123"⟩ [alice] false = (okResp, 1) := by
  refine ⟨?_, ?_, ?_⟩
  · exact ((C1_authenticate ⟨"ghost@x.com", "pw"⟩ [] ⟨none, none, none⟩
      0 0 0 false).1 (by decide)).1
  · exact (((C1_authenticate ⟨"a@x.com", "wrongpass"⟩ [alice] ⟨none, none, none⟩
      0 0 0 false).2.1 alice (by decide)).1 (by decide)).1
  · exact (((C1_authenticate ⟨"a@x.com", "secret123"⟩ [alice] ⟨none, none, none⟩
      0 0 0 false).2.1 alice (by decide)).2 (by decide)).1

/-- Claim C2: for a profile update against an existing authenticated user,
every field the request does not supply keeps its stored value (the password
keeps the stored hash, a supplied password is stored re-hashed), and
account_updated is set to the current time on every successful update,
including the no-field no-op request. -/
theorem C2_update_merge (c : Credentials) (req : UpdateRequest) (db : List User)
    (u : User) (it now salt : Nat)
    (hv : validUpdateRequest req)
    (hu : get_user_from_email c.username db false = some u)
    (hpw : checkpw c.password u.password = true)
    (hid : db.find? (fun v => v.id == u.id) = some u) :
    (update_user c req db false false it now salt).1 = okResp ∧
    (update_user c req db false false it now salt).2.find?
        (fun v => v.id == u.id) =
      some { u with
        first_name := if req.first_name.isSome then req.first_name
                      else u.first_name
        last_name := if req.last_name.isSome then req.last_name
                     else u.last_name
        password := match req.password with
                    | some p => hashpw p salt
                    | none => u.password
        account_updated := now } := by
  have hf : truthy req.first_name = req.first_name.isSome := by
    cases hrf : req.first_name with
    | none => rfl
    | some s => simp [truthy_some_of_length s (hv.2.2 s hrf)]
  have hl : truthy req.last_name = req.last_name.isSome := by
    cases hrl : req.last_name with
    | none => rfl
    | some s => simp [truthy_some_of_length s (hv.2.1 s hrl)]
  have hp : truthy req.password = req.password.isSome := by
    cases hrp : req.password with
    | none => rfl
    | some s =>
        have h8 := hv.1 s hrp
        simp [truthy_some_of_length s (Nat.le_trans (by norm_num) h8)]
  constructor
  · simp [update_user, hu, hpw, update_user_with_id, hid]
  · simp only [update_user, hu, hpw, if_true, update_user_with_id,
      Bool.false_eq_true, if_false, hid]
    simp only [Option.isSome_some, if_true]
    rw [find_map_replace _ _ u (by simp) db hid]
    simp only [Option.some.injEq, User.mk.injEq]
    refine ⟨trivial, trivial, ?_, ?_, ?_, trivial, trivial⟩
    · rw [hp]
      cases req.password <;> simp
    · rw [hf]
    · rw [hl]

/-- Claim C2 witness: an update supplying only first_name against the sample
store keeps last_name and the password hash and bumps account_updated. -/
theorem C2_update_merge_check :
    (update_user ⟨"a@x.com", "secret123"⟩ ⟨none, none, some "NewA"⟩
        [alice] false false 0 7 5).1 = okResp ∧
    (update_user ⟨"a@x.com", "secret123"⟩ ⟨none, none, some "NewA"⟩
        [alice] false false 0 7 5).2.find? (fun v => v.id == alice.id) =
      some { alice with first_name := some "NewA", account_updated := 7 } := by
  have h := C2_update_merge ⟨"a@x.com", "secret123"⟩ ⟨none, none, some "NewA"⟩
    [alice] alice 0 7 5
    (by
      refine ⟨?_, ?_, ?_⟩
      · intro p hp; cases hp
      · intro s hs; cases hs
      · intro s hs; cases hs; decide)
    (by decide) (by decide) (by decide)
  refine ⟨h.1, ?_⟩
  rw [h.2]
  decide

/-- Claim C3 counterexample: with correct credentials GET /me answers 200,
but the body carries an id key, which is not among the five keys the claim
allows, so the body is not exactly the claimed object. -/
theorem C3_counterexample :
    (get_current_user ⟨"a@x.com", "secret123"⟩ [alice] false).status = 200 ∧
    "id" ∈ ((get_current_user ⟨"a@x.com", "secret123"⟩
        [alice] false).body.getD []).map Prod.fst ∧
    "id" ∉ ["email", "first_name", "last_name", "account_created",
        "account_updated"] := by
  decide

/-- Claim C3 amended: with correct credentials GET /me answers 200 and its
body is exactly the safe_dict object with keys id, email, first_name,
last_name, account_created and account_updated; under every input the body
never contains a password key. -/
theorem C3_safe_projection (c : Credentials) (db : List User) (cf : Bool) :
    (∀ u, get_user_from_email c.username db cf = some u →
       checkpw c.password u.password = true →
       get_current_user c db cf = ⟨200, [], some (safe_dict u)⟩ ∧
       (safe_dict u).map Prod.fst =
         ["id", "email", "first_name", "last_name", "account_created",
          "account_updated"]) ∧
    (∀ b, (get_current_user c db cf).body = some b →
       "password" ∉ b.map Prod.fst) := by
  constructor
  · intro u hu hc
    exact ⟨by simp [get_current_user, hu, hc], by simp [safe_dict]⟩
  · intro b hb
    cases h : get_user_from_email c.username db cf with
    | none =>
        simp only [get_current_user, h, unauthorizedResp] at hb
        cases hb
    | some u =>
        simp only [get_current_user, h] at hb
        cases hc : checkpw c.password u.password with
        | false =>
            rw [hc] at hb
            simp [unauthorizedResp] at hb
        | true =>
            rw [hc] at hb
            simp only [if_true, Option.some.injEq] at hb
            subst hb
            simp [safe_dict]

/-- Claim C3 witness: the amended theorem at the sample store, giving the
concrete 200 response with the safe_dict body. -/
theorem C3_safe_projection_check :
    get_current_user ⟨"a@x.com", "secret123"⟩ [alice] false =
      ⟨200, [], some (safe_dict alice)⟩ :=
  ((C3_safe_projection ⟨"a@x.com", "secret123"⟩ [alice] false).1 alice
    (by decide) (by decide)).1

/-- Claim C5: POST /signup answers 201 when the store insert succeeds and 503
on any store failure (connectivity loss as well as duplicate email, with no
differentiation of cause): a fresh email succeeds, and a second signup with
the same email against the resulting store fails with 503. -/
theorem C5_signup_statuses (u u2 : User) (db : List User) (salt salt2 : Nat) :
    (signup u db true salt).1 = unavailableResp ∧
    (db.any (fun v => v.email == u.email) = true →
       (signup u db false salt).1 = unavailableResp) ∧
    (db.any (fun v => v.email == u.email) = false →
       (signup u db false salt).1 = createdResp ∧
       (u2.email = u.email →
          (signup u2 (signup u db false salt).2 false salt2).1 =
            unavailableResp)) := by
  refine ⟨?_, ?_, ?_⟩
  · simp [signup, create_user]
  · intro h
    simp [signup, create_user, signupStoredUser, h]
  · intro h
    constructor
    · simp [signup, create_user, signupStoredUser, h]
    · intro he
      simp [signup, create_user, signupStoredUser, h, he, assignId_email]

/-- Claim C5 witness: the concrete scenario, first signup 201, second signup
with the same email 503. -/
theorem C5_signup_statuses_check :
    (signup bobReq [] false 3).1 = createdResp ∧
    (signup bobReq ((signup bobReq [] false 3).2) false 4).1 =
      unavailableResp := by
  have h := (C5_signup_statuses bobReq bobReq [] 3 4).2.2 (by decide)
  exact ⟨h.1, h.2 (by decide)⟩

/-- Claim C6: verification of a malformed stored password value (one the hash
parser rejects) returns false rather than failing, and a login, current-user
or update request against such a record answers 401 instead of crashing. -/
theorem C6_malformed_hash (pw h : String) (c : Credentials) (db : List User)
    (req : UpdateRequest) (it now salt : Nat) :
    (parseHash h.data = none → checkpw pw h = false) ∧
    (∀ u, get_user_from_email c.username db false = some u →
       parseHash u.password.data = none →
       login c db false = (unauthorizedResp, 1) ∧
       get_current_user c db false = unauthorizedResp ∧
       (update_user c req db false false it now salt).1 =
         unauthorizedResp) := by
  constructor
  · intro hp
    simp [checkpw, hp]
  · intro u hu hp
    have hc : checkpw c.password u.password = false := by simp [checkpw, hp]
    refine ⟨?_, ?_, ?_⟩ <;>
      simp [login, get_current_user, update_user, hu, hc]

/-- Claim C6 witness: a record whose stored password is the corrupt value
plaintext; verify returns false and login answers 401, even when the claimed
password equals the stored text. -/
theorem C6_malformed_hash_check :
    checkpw "plaintext" "plaintext" = false ∧
    login ⟨"m@x.com", "plaintext"⟩ [mallory] false = (unauthorizedResp, 1) := by
  have h := C6_malformed_hash "plaintext" "plaintext" ⟨"m@x.com", "plaintext"⟩
    [mallory] ⟨none, none, none⟩ 0 0 0
  exact ⟨h.1 (by decide), (h.2 mallory (by decide) (by decide)).1⟩

/-- Claim C7 counterexample: a PUT /me with verifying credentials whose store
update fails is answered with status 401, not 503. -/
theorem C7_counterexample :
    (update_user ⟨"a@x.com", "secret123"⟩ ⟨none, none, none⟩ [alice]
        false true 0 7 5).1.status = 401 ∧
    (update_user ⟨"a@x.com", "secret123"⟩ ⟨none, none, none⟩ [alice]
        false true 0 7 5).1.status ≠ 503 := by
  decide

/-- Claim C7 amended: a PUT /me whose credentials verify but whose store
update fails (connectivity or constraint failure on the write) is answered
401 with the WWW-Authenticate Basic header, the same response as bad
credentials; the handler falls through to its single 401 return and no 503 is
produced on this path. -/
theorem C7_update_failure_401 (c : Credentials) (req : UpdateRequest)
    (db : List User) (u : User) (it now salt : Nat)
    (hu : get_user_from_email c.username db false = some u)
    (hc : checkpw c.password u.password = true) :
    (update_user c req db false true it now salt).1 = unauthorizedResp ∧
    unauthorizedResp.status = 401 := by
  constructor
  · simp [update_user, hu, hc, update_user_with_id]
  · rfl

/-- Claim C7 witness: the amended theorem at the sample store with a failing
write. -/
theorem C7_update_failure_401_check :
    (update_user ⟨"a@x.com", "secret123"⟩ ⟨none, none, none⟩ [alice]
        false true 0 7 5).1 = unauthorizedResp :=
  (C7_update_failure_401 ⟨"a@x.com", "secret123"⟩ ⟨none, none, none⟩ [alice]
    alice 0 7 5 (by decide) (by decide)).1

/-- Claim C8: a successful store update of an existing record changes only
first_name, last_name, password and account_updated: the returned record
keeps the stored id, email and account_created, and every record of the
resulting table is either an untouched original or that returned record. -/
theorem C8_update_frame (uid : Option Nat) (patch : User) (db : List User)
    (e r : User) (db2 : List User) (now : Nat)
    (he : db.find? (fun v => v.id == uid) = some e)
    (hr : update_user_with_id uid patch db false now = (some r, db2)) :
    r.id = e.id ∧ r.email = e.email ∧ r.account_created = e.account_created ∧
    r.first_name = patch.first_name ∧ r.last_name = patch.last_name ∧
    r.password = patch.password ∧ r.account_updated = now ∧
    ∀ v ∈ db2, v ∈ db ∨ v = r := by
  simp only [update_user_with_id, Bool.false_eq_true, if_false, he] at hr
  rw [Prod.mk.injEq] at hr
  obtain ⟨h1, h2⟩ := hr
  rw [Option.some.injEq] at h1
  subst h1
  subst h2
  refine ⟨rfl, rfl, rfl, rfl, rfl, rfl, rfl, ?_⟩
  intro v hv
  rcases List.mem_map.mp hv with ⟨w, hw, hwv⟩
  by_cases hwid : (w.id == uid) = true
  · right
    rw [← hwv, if_pos hwid]
  · left
    rw [← hwv, if_neg hwid]
    exact hw

/-- Claim C8 witness: a concrete update of the sample record, whose result
keeps the stored id and email. -/
theorem C8_update_frame_check :
    ((⟨some 1, "a@x.com", "plaintext", some "M", some "M", 0, 9⟩ : User).id =
        alice.id) ∧
    ((⟨some 1, "a@x.com", "plaintext", some "M", some "M", 0, 9⟩ : User).email =
        alice.email) := by
  have h := C8_update_frame (some 1) mallory [alice] alice
    ⟨some 1, "a@x.com", "plaintext", some "M", some "M", 0, 9⟩
    [⟨some 1, "a@x.com", "plaintext", some "M", some "M", 0, 9⟩] 9
    (by decide) (by decide)
  exact ⟨h.1, h.2.1⟩

/-- Claim C9: code-bug evidence.  The timestamps of a record created by
signup whose body does not supply them equal the constant evaluated at
module-import time (the field default), for every request: the signup pipeline
takes no current-time input, so a signup handled at any wall-clock time other
than the import time stores timestamps different from now-at-creation. -/
theorem C9_creation_timestamps (it : Nat) (b : SignupBody) (salt : Nat)
    (h1 : b.account_created = none) (h2 : b.account_updated = none) :
    (signupStoredUser (parseUserBody it b) salt).account_created = it ∧
    (signupStoredUser (parseUserBody it b) salt).account_updated = it := by
  simp [signupStoredUser, parseUserBody, h1, h2]

/-- Claim C9 witness: with import time 0, a signup body without timestamps is
stored with account_created 0 no matter when the request runs. -/
theorem C9_creation_timestamps_check :
    (signupStoredUser (parseUserBody 0
        ⟨none, "b@x.com", "longenough1", some "A", some "B", none, none⟩)
      3).account_created = 0 :=
  (C9_creation_timestamps 0
    ⟨none, "b@x.com", "longenough1", some "A", some "B", none, none⟩ 3
    rfl rfl).1

/-- Claim C10: the POST /signup body is parsed as the full User model and the
handler transforms only the password field before the insert: client-supplied
id, email, names and timestamps reach the store unchanged, the password
reaches it hashed, and the handler hands exactly that record to create_user. -/
theorem C10_signup_passthrough (it : Nat) (b : SignupBody) (salt : Nat) :
    (signupStoredUser (parseUserBody it b) salt).id = b.id ∧
    (signupStoredUser (parseUserBody it b) salt).email = b.email ∧
    (signupStoredUser (parseUserBody it b) salt).first_name = b.first_name ∧
    (signupStoredUser (parseUserBody it b) salt).last_name = b.last_name ∧
    (∀ t, b.account_created = some t →
       (signupStoredUser (parseUserBody it b) salt).account_created = t) ∧
    (∀ t, b.account_updated = some t →
       (signupStoredUser (parseUserBody it b) salt).account_updated = t) ∧
    (signupStoredUser (parseUserBody it b) salt).password =
      hashpw b.password salt ∧
    (∀ db cf, signup (parseUserBody it b) db cf salt =
       (if (create_user (signupStoredUser (parseUserBody it b) salt) db cf).1
        then createdResp else unavailableResp,
        (create_user (signupStoredUser (parseUserBody it b) salt) db cf).2)) := by
  refine ⟨rfl, rfl, rfl, rfl, ?_, ?_, rfl, ?_⟩
  · intro t ht
    simp [signupStoredUser, parseUserBody, ht]
  · intro t ht
    simp [signupStoredUser, parseUserBody, ht]
  · intro db cf
    simp only [signup]
    cases h : (create_user (signupStoredUser (parseUserBody it b) salt)
        db cf).1 <;> simp [h]

/-- Claim C10 witness: a body supplying id 42 and timestamp 11 is stored with
id 42 and account_created 11. -/
theorem C10_signup_passthrough_check :
    (signupStoredUser (parseUserBody 0
        ⟨some 42, "b@x.com", "longenough1", some "A", some "B", some 11,
         some 12⟩) 3).id = some 42 ∧
    (signupStoredUser (parseUserBody 0
        ⟨some 42, "b@x.com", "longenough1", some "A", some "B", some 11,
         some 12⟩) 3).account_created = 11 := by
  have h := C10_signup_passthrough 0
    ⟨some 42, "b@x.com", "longenough1", some "A", some "B", some 11, some 12⟩ 3
  exact ⟨h.1, h.2.2.2.2.1 11 rfl⟩

end Webapp
